import Mathlib

/-!
Verification development for the figplugin repository (Growth99 Figma plugin).

The definitions below are a shallow embedding of the plugin's TypeScript
sources: `figma-plugin/src/figma-api/types.ts` and `node-builder.ts`
(paints, effects, component specs, node construction),
`figma-plugin/src/renderers/*` (section renderers), and the plugin core
message handler (`code.ts`).  Numeric style values are modelled as
rationals; JavaScript `undefined` is modelled with `Option`, and
JavaScript truthiness of strings/numbers is made explicit where the
source relies on it.
-/

/-- JS truthiness for an optional string: `undefined` and `""` are falsy. -/
def truthyStr : Option String → Bool
  | some s => s ≠ ""
  | none => false

/-- JS truthiness for an optional number: `undefined` and `0` are falsy. -/
def truthyNum : Option ℚ → Bool
  | some v => v ≠ 0
  | none => false

/-- JS `a || b` for optional strings: falls through on `undefined` or `""`. -/
def jsOrStr (o : Option String) (d : String) : String :=
  match o with
  | some s => if s = "" then d else s
  | none => d

/-- `RGB` from figma-api/types.ts. -/
structure RGB where
  r : ℚ
  g : ℚ
  b : ℚ
deriving DecidableEq, Repr

/-- `RGBA` from figma-api/types.ts. -/
structure RGBA where
  r : ℚ
  g : ℚ
  b : ℚ
  a : ℚ
deriving DecidableEq, Repr

/-- `ColorStop` from figma-api/types.ts. -/
structure ColorStop where
  position : ℚ
  color : RGBA
deriving DecidableEq, Repr

/-- `Paint` union from figma-api/types.ts: `SolidPaint | GradientPaint | ImagePaint`.
Gradient kind is the suffix of the `GRADIENT_*` type tag; the image
`imageHash` is nullable. -/
inductive Paint where
  | solid (color : RGB)
  | gradient (kind : String) (stops : List ColorStop)
  | image (scaleMode : String) (imageHash : Option String)
deriving DecidableEq, Repr

/-- `Effect` union from figma-api/types.ts. -/
inductive Effect where
  | dropShadow (color : RGBA) (offsetX offsetY radius spread : ℚ)
  | innerShadow (color : RGBA) (offsetX offsetY radius spread : ℚ)
  | layerBlur (radius : ℚ)
  | backgroundBlur (radius : ℚ)
deriving DecidableEq, Repr

/-- `FontName` from figma-api/types.ts. -/
structure FontName where
  family : String
  style : String
deriving DecidableEq, Repr

/-- `LetterSpacing` from figma-api/types.ts. -/
structure LetterSpacing where
  value : ℚ
  unit : String
deriving DecidableEq, Repr

/-- `LineHeight` from figma-api/types.ts. -/
structure LineHeight where
  value : ℚ
  unit : String
deriving DecidableEq, Repr

/-- The property bag of a `ComponentSpec` (figma-api/types.ts, `properties`).
Optional fields model TS optional properties. -/
structure NodeProps where
  x : Option ℚ := none
  y : Option ℚ := none
  width : Option ℚ := none
  height : Option ℚ := none
  fills : Option (List Paint) := none
  strokes : Option (List Paint) := none
  strokeWeight : Option ℚ := none
  cornerRadius : Option ℚ := none
  effects : Option (List Effect) := none
  layoutMode : Option String := none
  primaryAxisSizingMode : Option String := none
  counterAxisSizingMode : Option String := none
  paddingTop : Option ℚ := none
  paddingRight : Option ℚ := none
  paddingBottom : Option ℚ := none
  paddingLeft : Option ℚ := none
  itemSpacing : Option ℚ := none
  fontName : Option FontName := none
  fontSize : Option ℚ := none
  letterSpacing : Option LetterSpacing := none
  lineHeight : Option LineHeight := none
  characters : Option String := none
  textAlignHorizontal : Option String := none
  textAlignVertical : Option String := none
deriving DecidableEq, Repr

/-- The mutable state of a created Figma scene node (the fields the plugin
reads or writes).  `pluginRole` is the `role` plugin-data entry
(`getPluginData('role')` returns `""` when unset). -/
structure NodeData where
  ntype : String
  name : String := ""
  x : ℚ := 0
  y : ℚ := 0
  width : ℚ := 100
  height : ℚ := 100
  fills : List Paint := []
  strokes : List Paint := []
  strokeWeight : ℚ := 1
  cornerRadius : ℚ := 0
  effects : List Effect := []
  layoutMode : String := "NONE"
  primaryAxisSizingMode : String := "AUTO"
  counterAxisSizingMode : String := "AUTO"
  paddingTop : ℚ := 0
  paddingRight : ℚ := 0
  paddingBottom : ℚ := 0
  paddingLeft : ℚ := 0
  itemSpacing : ℚ := 0
  fontName : FontName := ⟨"Inter", "Regular"⟩
  fontSize : ℚ := 12
  letterSpacing : Option LetterSpacing := none
  lineHeight : Option LineHeight := none
  characters : String := ""
  textAlignHorizontal : String := "LEFT"
  textAlignVertical : String := "TOP"
  pluginRole : String := ""
  pluginPinned : String := ""
deriving DecidableEq, Repr

mutual
/-- A live scene node: its data plus its ordered children.  `SceneForest`
is the ordered child sequence (a mutual inductive so recursion over the
tree stays structural). -/
inductive SceneNode where
  | node (data : NodeData) (children : SceneForest)
deriving DecidableEq, Repr

inductive SceneForest where
  | nil
  | cons (head : SceneNode) (tail : SceneForest)
deriving DecidableEq, Repr
end

def SceneNode.data : SceneNode → NodeData
  | .node d _ => d

def SceneNode.children : SceneNode → SceneForest
  | .node _ c => c

def SceneForest.toList : SceneForest → List SceneNode
  | .nil => []
  | .cons n t => n :: SceneForest.toList t

mutual
/-- `ComponentSpec` from figma-api/types.ts: name, type tag, property bag
and ordered children.  The TS `children?: ComponentSpec[]` is modelled as
a forest (absence and the empty array behave identically in
`createFromSpec`). -/
inductive ComponentSpec where
  | mk (name : String) (type : String) (properties : NodeProps) (children : SpecForest)
deriving DecidableEq, Repr

inductive SpecForest where
  | nil
  | cons (head : ComponentSpec) (tail : SpecForest)
deriving DecidableEq, Repr
end

def ComponentSpec.name : ComponentSpec → String
  | .mk n _ _ _ => n

def ComponentSpec.type : ComponentSpec → String
  | .mk _ t _ _ => t

def ComponentSpec.properties : ComponentSpec → NodeProps
  | .mk _ _ p _ => p

def ComponentSpec.children : ComponentSpec → SpecForest
  | .mk _ _ _ c => c

namespace FigmaNodeBuilder

/-- `FigmaNodeBuilder.isValidRGB` (node-builder.ts): each channel in [0,1]. -/
def isValidRGB (color : RGB) : Bool :=
  decide (0 ≤ color.r) && decide (color.r ≤ 1) &&
  decide (0 ≤ color.g) && decide (color.g ≤ 1) &&
  decide (0 ≤ color.b) && decide (color.b ≤ 1)

/-- `FigmaNodeBuilder.isValidRGBA` (node-builder.ts). -/
def isValidRGBA (color : RGBA) : Bool :=
  isValidRGB ⟨color.r, color.g, color.b⟩ &&
  decide (0 ≤ color.a) && decide (color.a ≤ 1)

/-- The filter predicate inside `FigmaNodeBuilder.validatePaints`
(node-builder.ts): SOLID needs a valid RGB, GRADIENT_* needs every stop
to have a valid RGBA color and position in [0,1], IMAGE needs a non-null
imageHash. -/
def validPaint : Paint → Bool
  | .solid color => isValidRGB color
  | .gradient _ stops =>
      stops.all fun stop =>
        isValidRGBA stop.color &&
        decide (0 ≤ stop.position) && decide (stop.position ≤ 1)
  | .image _ imageHash => imageHash.isSome

/-- `FigmaNodeBuilder.validatePaints` (node-builder.ts). -/
def validatePaints (paints : List Paint) : List Paint :=
  paints.filter validPaint

/-- The filter predicate inside `FigmaNodeBuilder.validateEffects`
(node-builder.ts). -/
def validEffect : Effect → Bool
  | .dropShadow color _ _ radius _ => isValidRGBA color && decide (0 ≤ radius)
  | .innerShadow color _ _ radius _ => isValidRGBA color && decide (0 ≤ radius)
  | .layerBlur radius => decide (0 ≤ radius)
  | .backgroundBlur radius => decide (0 ≤ radius)

/-- `FigmaNodeBuilder.validateEffects` (node-builder.ts). -/
def validateEffects (effects : List Effect) : List Effect :=
  effects.filter validEffect

/-- Which node types expose `cornerRadius` (the `'cornerRadius' in node`
guard): rectangles and frames. -/
def hasCornerRadius (ntype : String) : Bool :=
  ntype = "RECTANGLE" || ntype = "FRAME"

/-- Position block of `applyProperties`: both x and y must be present. -/
def applyPosition (d : NodeData) (props : NodeProps) : NodeData :=
  match props.x, props.y with
  | some px, some py => { d with x := px, y := py }
  | _, _ => d

/-- Size block of `applyProperties`: `node.resize(width, height)` when both
are present. -/
def applySize (d : NodeData) (props : NodeProps) : NodeData :=
  match props.width, props.height with
  | some w, some h => { d with width := w, height := h }
  | _, _ => d

/-- Fills block of `applyProperties`: validate, and assign only when at
least one paint survived. -/
def applyFills (d : NodeData) (props : NodeProps) : NodeData :=
  match props.fills with
  | some fs =>
      let validFills := validatePaints fs
      if validFills.length > 0 then { d with fills := validFills } else d
  | none => d

/-- Strokes block of `applyProperties`: needs strokes and strokeWeight,
validates, and assigns only when at least one paint survived. -/
def applyStrokes (d : NodeData) (props : NodeProps) : NodeData :=
  match props.strokes, props.strokeWeight with
  | some ss, some w =>
      let validStrokes := validatePaints ss
      if validStrokes.length > 0 then
        { d with strokes := validStrokes, strokeWeight := w }
      else d
  | _, _ => d

/-- Corner-radius block of `applyProperties`. -/
def applyCorner (d : NodeData) (props : NodeProps) : NodeData :=
  match props.cornerRadius with
  | some cr => if hasCornerRadius d.ntype then { d with cornerRadius := cr } else d
  | none => d

/-- Effects block of `applyProperties`. -/
def applyEffects (d : NodeData) (props : NodeProps) : NodeData :=
  match props.effects with
  | some es =>
      let validEffects := validateEffects es
      if validEffects.length > 0 then { d with effects := validEffects } else d
  | none => d

/-- Auto-layout block of `applyProperties` (`'layoutMode' in node`: frames
only).  The source sets each field with its own independent `if`; here the
conditional sits inside the field update, which is the same assignment
field by field. -/
def applyAutoLayout (d : NodeData) (props : NodeProps) : NodeData :=
  if d.ntype = "FRAME" then
    { d with
      layoutMode := if truthyStr props.layoutMode then
          props.layoutMode.getD d.layoutMode else d.layoutMode
      primaryAxisSizingMode := if truthyStr props.primaryAxisSizingMode then
          props.primaryAxisSizingMode.getD d.primaryAxisSizingMode else d.primaryAxisSizingMode
      counterAxisSizingMode := if truthyStr props.counterAxisSizingMode then
          props.counterAxisSizingMode.getD d.counterAxisSizingMode else d.counterAxisSizingMode
      paddingTop := props.paddingTop.getD d.paddingTop
      paddingRight := props.paddingRight.getD d.paddingRight
      paddingBottom := props.paddingBottom.getD d.paddingBottom
      paddingLeft := props.paddingLeft.getD d.paddingLeft
      itemSpacing := props.itemSpacing.getD d.itemSpacing }
  else d

/-- Text block of `applyProperties` (TEXT nodes only; JS truthiness on
`characters` and `fontSize`).  As above, the source's independent
per-field `if` assignments become conditionals inside one update. -/
def applyText (d : NodeData) (props : NodeProps) : NodeData :=
  if d.ntype = "TEXT" then
    { d with
      fontName := props.fontName.getD d.fontName
      characters := if truthyStr props.characters then
          props.characters.getD d.characters else d.characters
      fontSize := if truthyNum props.fontSize then
          props.fontSize.getD d.fontSize else d.fontSize
      letterSpacing := match props.letterSpacing with
        | some ls => some ls | none => d.letterSpacing
      lineHeight := match props.lineHeight with
        | some lh => some lh | none => d.lineHeight
      textAlignHorizontal := if truthyStr props.textAlignHorizontal then
          props.textAlignHorizontal.getD d.textAlignHorizontal else d.textAlignHorizontal
      textAlignVertical := if truthyStr props.textAlignVertical then
          props.textAlignVertical.getD d.textAlignVertical else d.textAlignVertical }
  else d

/-- `FigmaNodeBuilder.applyProperties` (node-builder.ts): the blocks in
source order. -/
def applyProperties (d : NodeData) (props : NodeProps) : NodeData :=
  applyText
    (applyAutoLayout
      (applyEffects
        (applyCorner
          (applyStrokes
            (applyFills
              (applySize
                (applyPosition d props) props) props) props) props) props) props) props

/-- The `switch (spec.type)` of `createFromSpec`: which creator runs.
There is no `GROUP` case in the source; the `default` branch logs a
warning and returns null. -/
def initialNode : String → Option NodeData
  | "FRAME" => some { ntype := "FRAME" }
  | "TEXT" => some { ntype := "TEXT" }
  | "RECTANGLE" => some { ntype := "RECTANGLE" }
  | "ELLIPSE" => some { ntype := "ELLIPSE" }
  | _ => none

/-- The `'appendChild' in node` guard of `createFromSpec`: of the node
types it creates, only frames are containers. -/
def hasAppendChild (ntype : String) : Bool :=
  ntype = "FRAME"

mutual
/-- `FigmaNodeBuilder.createFromSpec` (node-builder.ts): create a node per
the type switch (null on unknown type), set the name, apply properties,
then append the recursively created children when the node is a
container.  A child that comes back null is skipped. -/
def createFromSpec : ComponentSpec → Option SceneNode
  | .mk name ty props children =>
    match initialNode ty with
    | none => none
    | some d =>
        let d := applyProperties { d with name := name } props
        let kids := if hasAppendChild d.ntype then createChildren children else .nil
        some (.node d kids)

/-- The child loop of `createFromSpec`: recurse in order, skip nulls. -/
def createChildren : SpecForest → SceneForest
  | .nil => .nil
  | .cons c cs =>
    match createFromSpec c with
    | some n => .cons n (createChildren cs)
    | none => createChildren cs
end

end FigmaNodeBuilder

def SceneForest.ofList : List SceneNode → SceneForest
  | [] => .nil
  | n :: ns => .cons n (SceneForest.ofList ns)

/-! The renderer layer: `renderers/layout.ts`, `renderers/text.ts`,
`renderers/premium-components.ts` and `renderers/components.ts`.
`figma.loadFontAsync` is modelled as succeeding (on failure the source's
`createTextNode` falls back to Inter Regular and still returns a node). -/

/-- `FrameOptions` from renderers/layout.ts. -/
structure FrameOptions where
  name : Option String := none
  width : Option ℚ := none
  padding : Option ℚ := none
  spacing : Option ℚ := none

/-- `createAutoLayoutFrame` (renderers/layout.ts): a vertical auto-layout
frame with defaulted spacing and uniform padding; `if (options.width)` is
a JS truthiness test. -/
def createAutoLayoutFrame (options : FrameOptions) : NodeData :=
  let pad := options.padding.getD 24
  let d : NodeData :=
    { ntype := "FRAME"
      name := options.name.getD "Frame"
      layoutMode := "VERTICAL"
      primaryAxisSizingMode := "AUTO"
      counterAxisSizingMode := "AUTO"
      itemSpacing := options.spacing.getD 24
      paddingTop := pad, paddingRight := pad
      paddingBottom := pad, paddingLeft := pad }
  if truthyNum options.width then { d with width := options.width.getD d.width } else d

/-- The options record of `createTextNode` (renderers/text.ts). -/
structure TextOptions where
  family : Option String := none
  style : Option String := none
  size : Option ℚ := none
  line : Option ℚ := none

/-- `createTextNode` (renderers/text.ts): `options.family || 'Inter'`,
`options.style || 'Regular'`; size and line height applied on JS-truthy
values. -/
def createTextNode (text : String) (options : TextOptions) : SceneNode :=
  let family := jsOrStr options.family "Inter"
  let style := jsOrStr options.style "Regular"
  let d : NodeData := { ntype := "TEXT", characters := text, fontName := ⟨family, style⟩ }
  let d := if truthyNum options.size then { d with fontSize := options.size.getD d.fontSize } else d
  let d := if truthyNum options.line then
      { d with lineHeight := some ⟨options.line.getD 0, "PIXELS"⟩ } else d
  .node d .nil

/-- One step of the `replace(/\s+/g, '_')` model: a maximal run of
whitespace becomes a single underscore. -/
def collapseWsAux (prevWs : Bool) : List Char → List Char
  | [] => []
  | c :: cs =>
    if c.isWhitespace then
      (if prevWs then [] else ['_']) ++ collapseWsAux true cs
    else
      c :: collapseWsAux false cs

/-- `text.replace(/\s+/g, '_')` as used for generated node names. -/
def collapseWs (s : String) : String :=
  ⟨collapseWsAux false s.data⟩

namespace PremiumComponentRenderer

/-- One row of the `sizes` table in `createPremiumButton`. -/
structure ButtonSizeSpec where
  padX : ℚ
  padY : ℚ
  fontSize : ℚ
  radius : ℚ

/-- The `sizes` lookup of `createPremiumButton`
(renderers/premium-components.ts); every call site passes one of the four
declared keys, defaulted to `md`. -/
def buttonSizes : String → ButtonSizeSpec
  | "sm" => ⟨16, 8, 14, 8⟩
  | "lg" => ⟨32, 16, 18, 12⟩
  | "xl" => ⟨40, 20, 20, 14⟩
  | _ => ⟨24, 12, 16, 10⟩

/-- `PremiumComponentRenderer.createPremiumButton`
(renderers/premium-components.ts). -/
def createPremiumButton (text : String) (variant : Option String) (size : Option String) :
    SceneNode :=
  let sz := buttonSizes (jsOrStr size "md")
  let button := createAutoLayoutFrame
    { name := some ("Button_" ++ collapseWs text), padding := some sz.padY, spacing := some 12 }
  let button := { button with
    layoutMode := "HORIZONTAL"
    paddingLeft := sz.padX, paddingRight := sz.padX
    cornerRadius := sz.radius }
  let button := if variant = some "primary" ∨ ¬ truthyStr variant then
      { button with fills := [Paint.solid ⟨0.15, 0.31, 0.92⟩] }
    else
      { button with fills := [Paint.solid ⟨0.9, 0.9, 0.9⟩] }
  let label := createTextNode text
    { family := some "Inter", style := some "Bold", size := some sz.fontSize }
  let label := SceneNode.node { label.data with fills := [Paint.solid ⟨1, 1, 1⟩] } label.children
  .node button (.cons label .nil)

/-- `PremiumCardProps` as consumed by `createPremiumCard`. -/
structure PremiumCardProps where
  title : Option String := none
  subtitle : Option String := none
  content : Option String := none
  variant : Option String := none
  padding : Option ℚ := none
  shadow : Bool := false

/-- `PremiumComponentRenderer.createPremiumCard`
(renderers/premium-components.ts). -/
def createPremiumCard (props : PremiumCardProps) : SceneNode :=
  let card := createAutoLayoutFrame
    { name := some ("Card_" ++ jsOrStr (props.title.map collapseWs) "Component")
      padding := some (if truthyNum props.padding then props.padding.getD 32 else 32)
      spacing := some 16 }
  let card := { card with fills := [Paint.solid ⟨1, 1, 1⟩], cornerRadius := 16, width := 360 }
  let card := if props.variant = some "glass" then
      { card with fills := [Paint.solid ⟨0.95, 0.95, 0.97⟩] } else card
  let kids : List SceneNode :=
    (if truthyStr props.title then
      let t := createTextNode (props.title.getD "")
        { family := some "Inter", style := some "Bold", size := some 24 }
      [SceneNode.node { t.data with fills := [Paint.solid ⟨0.12, 0.16, 0.22⟩] } t.children]
     else []) ++
    (if truthyStr props.subtitle then
      let st := createTextNode (props.subtitle.getD "")
        { family := some "Inter", style := some "Medium", size := some 16 }
      [SceneNode.node { st.data with fills := [Paint.solid ⟨0.42, 0.45, 0.50⟩] } st.children]
     else []) ++
    (if truthyStr props.content then
      let ct := createTextNode (props.content.getD "")
        { family := some "Inter", style := some "Regular", size := some 14 }
      [SceneNode.node { ct.data with fills := [Paint.solid ⟨0.42, 0.45, 0.50⟩] } ct.children]
     else [])
  .node card (SceneForest.ofList kids)

/-- `PremiumHeroProps` as consumed by `createPremiumHero`. -/
structure PremiumHeroProps where
  title : String := ""
  subtitle : Option String := none
  description : Option String := none
  primaryCTA : Option String := none
  secondaryCTA : Option String := none
  backgroundType : Option String := none
  layout : Option String := none

/-- `PremiumComponentRenderer.createPremiumHero`
(renderers/premium-components.ts). -/
def createPremiumHero (props : PremiumHeroProps) : SceneNode :=
  let hero := createAutoLayoutFrame
    { name := some "Hero_Section", padding := some 80
      spacing := some (if props.layout = some "split" then 64 else 32) }
  let hero := { hero with
    layoutMode := if props.layout = some "split" then "HORIZONTAL" else "VERTICAL"
    width := 1440 }
  let hero := if props.backgroundType = some "gradient" then
      { hero with fills := [Paint.solid ⟨0.15, 0.31, 0.92⟩] }
    else
      { hero with fills := [Paint.solid ⟨1, 1, 1⟩] }
  let content := createAutoLayoutFrame
    { name := some "Hero_Content", padding := some 0, spacing := some 24 }
  let title := createTextNode props.title
    { family := some "Inter", style := some "Bold", size := some 52 }
  let title := SceneNode.node { title.data with fills := [Paint.solid ⟨0.12, 0.16, 0.22⟩] }
    title.children
  let contentKids : List SceneNode :=
    [title] ++
    (if truthyStr props.subtitle then
      let st := createTextNode (props.subtitle.getD "")
        { family := some "Inter", style := some "Medium", size := some 24 }
      [SceneNode.node { st.data with fills := [Paint.solid ⟨0.42, 0.45, 0.50⟩] } st.children]
     else []) ++
    (if truthyStr props.description then
      let de := createTextNode (props.description.getD "")
        { family := some "Inter", style := some "Regular", size := some 18 }
      [SceneNode.node { de.data with fills := [Paint.solid ⟨0.42, 0.45, 0.50⟩] } de.children]
     else []) ++
    (if truthyStr props.primaryCTA ∨ truthyStr props.secondaryCTA then
      let ctaContainer := createAutoLayoutFrame
        { name := some "CTA_Container", padding := some 0, spacing := some 16 }
      let ctaContainer := { ctaContainer with layoutMode := "HORIZONTAL" }
      let btns : List SceneNode :=
        (if truthyStr props.primaryCTA then
          [createPremiumButton (props.primaryCTA.getD "") (some "primary") (some "lg")]
         else []) ++
        (if truthyStr props.secondaryCTA then
          [createPremiumButton (props.secondaryCTA.getD "") (some "secondary") (some "lg")]
         else [])
      [SceneNode.node ctaContainer (SceneForest.ofList btns)]
     else [])
  let contentNode := SceneNode.node content (SceneForest.ofList contentKids)
  let heroKids : List SceneNode :=
    [contentNode] ++
    (if props.layout = some "split" then
      [SceneNode.node
        { ntype := "RECTANGLE", name := "Hero_Image", width := 600, height := 400
          fills := [Paint.solid ⟨0.9, 0.9, 0.9⟩], cornerRadius := 16 } .nil]
     else [])
  .node hero (SceneForest.ofList heroKids)

/-- `PremiumComponentRenderer.createPremiumHeader`
(renderers/premium-components.ts). -/
def createPremiumHeader : SceneNode :=
  let header := createAutoLayoutFrame
    { name := some "Header_Premium", padding := some 24, spacing := some 32 }
  let header := { header with
    layoutMode := "HORIZONTAL", width := 1440, fills := [Paint.solid ⟨1, 1, 1⟩] }
  let logo : SceneNode := .node
    { ntype := "RECTANGLE", name := "Logo_Premium", width := 140, height := 48
      cornerRadius := 8, fills := [Paint.solid ⟨0.15, 0.31, 0.92⟩] } .nil
  let nav := createAutoLayoutFrame
    { name := some "Navigation", padding := some 0, spacing := some 32 }
  let nav := { nav with layoutMode := "HORIZONTAL" }
  let navLinks : List SceneNode :=
    ["Home", "Services", "About", "Contact"].map fun item =>
      let link := createTextNode item
        { family := some "Inter", style := some "Medium", size := some 16 }
      SceneNode.node { link.data with fills := [Paint.solid ⟨0.12, 0.16, 0.22⟩] } link.children
  let navNode := SceneNode.node nav (SceneForest.ofList navLinks)
  let ctaBtn := createPremiumButton "Book Consultation" (some "primary") (some "md")
  .node header (SceneForest.ofList [logo, navNode, ctaBtn])

end PremiumComponentRenderer

/-- A duck-typed `items` entry: Features reads `title`/`desc`,
Testimonials reads `quote`/`author`. -/
structure ItemRecord where
  title : Option String := none
  desc : Option String := none
  quote : Option String := none
  author : Option String := none
deriving DecidableEq, Repr

/-- The `props: Record<string, any>` bag of a `SectionSpec` (types.ts),
restricted to the keys the renderers read. -/
structure SectionProps where
  title : Option String := none
  subtitle : Option String := none
  cta : Option String := none
  text : Option String := none
  items : Option (List ItemRecord) := none
deriving DecidableEq, Repr

/-- `SectionSpec` (types.ts).  The TS type tag is a closed union of six
section names, but runtime values come from backend JSON, so the tag is
modelled as a string. -/
structure SectionSpec where
  type : String
  props : SectionProps
deriving DecidableEq, Repr

/-- JS string coercion of a possibly-undefined value in a template
literal. -/
def jsStr (o : Option String) : String := o.getD "undefined"

/-- `renderHeader` (renderers/components.ts): delegates to the premium
header. -/
def renderHeader (_props : SectionProps) : SceneNode :=
  PremiumComponentRenderer.createPremiumHeader

/-- `renderHero` (renderers/components.ts). -/
def renderHero (props : SectionProps) : SceneNode :=
  PremiumComponentRenderer.createPremiumHero
    { title := jsOrStr props.title "Transform Your Health Journey"
      subtitle := some (jsOrStr props.subtitle "Expert Care, Premium Results")
      description := some "Experience the difference with our state-of-the-art treatments and personalized approach to wellness."
      primaryCTA := some (jsOrStr props.cta "Book Consultation")
      secondaryCTA := some "Learn More"
      backgroundType := some "gradient"
      layout := some "split" }

/-- `renderFeatures` (renderers/components.ts). -/
def renderFeatures (props : SectionProps) : SceneNode :=
  let frame := createAutoLayoutFrame
    { name := some "Features", spacing := some 24, padding := some 80 }
  let frame := { frame with
    layoutMode := "HORIZONTAL"
    primaryAxisSizingMode := "AUTO"
    counterAxisSizingMode := "FIXED"
    width := 1440
    fills := [Paint.solid ⟨0.98, 0.99, 1⟩] }
  let items := props.items.getD []
  let cards := items.map fun it =>
    let card := PremiumComponentRenderer.createPremiumCard
      { title := some (jsOrStr it.title "Premium Feature")
        content := some (jsOrStr it.desc "Experience excellence with our advanced approach to healthcare.")
        variant := some "gradient"
        shadow := true
        padding := some 32 }
    SceneNode.node { card.data with width := 360 } card.children
  .node frame (SceneForest.ofList cards)

/-- `renderCTA` (renderers/components.ts). -/
def renderCTA (props : SectionProps) : SceneNode :=
  let frame := createAutoLayoutFrame
    { name := some "CTA", spacing := some 32, padding := some 80 }
  let frame := { frame with
    counterAxisSizingMode := "FIXED"
    width := 1440
    fills := [Paint.solid ⟨0.15, 0.31, 0.92⟩] }
  let title := createTextNode (jsOrStr props.title "Ready to Transform Your Health?")
    { family := some "Inter", style := some "Bold", size := some 36 }
  let title := SceneNode.node { title.data with fills := [Paint.solid ⟨1, 1, 1⟩] } title.children
  let subtitle := createTextNode "Join thousands who have already experienced the difference"
    { family := some "Inter", style := some "Regular", size := some 18 }
  -- the source writes an RGBA into a SolidPaint color; the alpha channel is dropped
  let subtitle := SceneNode.node { subtitle.data with fills := [Paint.solid ⟨1, 1, 1⟩] }
    subtitle.children
  let ctaBtn := PremiumComponentRenderer.createPremiumButton
    (jsOrStr props.cta "Schedule Your Consultation") (some "secondary") (some "xl")
  let ctaBtn := SceneNode.node { ctaBtn.data with fills := [Paint.solid ⟨1, 1, 1⟩] }
    ctaBtn.children
  .node frame (SceneForest.ofList [title, subtitle, ctaBtn])

/-- `renderFooter` (renderers/components.ts). -/
def renderFooter (props : SectionProps) : SceneNode :=
  let frame := createAutoLayoutFrame
    { name := some "Footer", spacing := some 8, padding := some 24 }
  let text := createTextNode (jsOrStr props.text "© Growth99")
    { family := some "Inter", style := some "Regular", size := some 12 }
  .node frame (.cons text .nil)

/-- `renderTestimonials` (renderers/components.ts). -/
def renderTestimonials (props : SectionProps) : SceneNode :=
  let frame := createAutoLayoutFrame
    { name := some "Testimonials", spacing := some 12, padding := some 20 }
  let items := props.items.getD
    [{ quote := some "Amazing service!", author := some "Client" }]
  let cards := items.map fun it =>
    let card := createAutoLayoutFrame
      { name := some "Testimonial", spacing := some 6, padding := some 16 }
    let q := createTextNode ("“" ++ jsStr it.quote ++ "”")
      { family := some "Inter", style := some "Italic", size := some 16, line := some 24 }
    let kids : List SceneNode :=
      [q] ++
      (if truthyStr it.author then
        [createTextNode ("— " ++ it.author.getD "")
          { family := some "Inter", style := some "Regular", size := some 12 }]
       else [])
    SceneNode.node card (SceneForest.ofList kids)
  .node frame (SceneForest.ofList cards)

/-- `renderSection` (renderers/components.ts): dispatch on the section
type tag; the default branch emits a generic labeled placeholder frame. -/
def renderSection (sec : SectionSpec) : SceneNode :=
  match sec.type with
  | "Header" => renderHeader sec.props
  | "Hero" => renderHero sec.props
  | "Features" => renderFeatures sec.props
  | "CTA" => renderCTA sec.props
  | "Footer" => renderFooter sec.props
  | "Testimonials" => renderTestimonials sec.props
  | _ =>
      let frame := createAutoLayoutFrame { name := some sec.type }
      let label := createTextNode sec.type
        { family := some "Inter", style := some "Bold", size := some 18 }
      .node frame (.cons label .nil)

/-! The plugin core (`code.ts`, source part_009): message protocol,
the `GenerateFirstPage` handler, the traditional rendering path
(`createFigmaNode`, `applyFrameProperties`, `applyTextProperties`,
`applyRectangleProperties`, `convertFills`, `applyGeneratedImages`) and
the AI renderer (`renderers/ai-renderer.ts`).  Network fetches
(`figma.createImageAsync`, the backend call) are modelled as oracles. -/

/-- `GenerateFirstPagePayload` (types.ts) plus the `referenceUrls` field
the handler reads. -/
structure GenerateFirstPagePayload where
  projectId : Option String := none
  model : Option String := none
  useAiImages : Option Bool := none
  brief : Option String := none
  referenceUrls : Option (List String) := none
deriving DecidableEq, Repr

/-- `UIToCoreMessage` (types.ts): the closed message union from the UI. -/
inductive UIToCoreMessage where
  | sessionStart (projectId : Option String)
  | generateFirstPage (payload : GenerateFirstPagePayload)
  | redesign (pinnedSlots : List String)
  | generateSitePages (pages : List String)
  | applyImages (mapping : List (String × String))
deriving DecidableEq, Repr

/-- `CoreToUIMessage` (types.ts): progress, error and completion events. -/
inductive CoreToUIMessage where
  | renderProgress (step : String) (percent : Nat)
  | error (code : String) (message : String) (suggestion : Option String)
  | rendered (pageName : Option String)
deriving DecidableEq, Repr

/-- One entry of the backend `images` array
(`{ role, url, prompt }`). -/
structure ImageSpec where
  role : String
  url : String
  prompt : String := ""
deriving DecidableEq, Repr

/-- `PageSpec` (types.ts). -/
structure PageSpec where
  pageName : String
  sections : List SectionSpec
  assets : List (String × String) := []
deriving DecidableEq, Repr

/-- The backend's `final_page_spec` object as the handler reads it. -/
structure FinalPageSpec where
  pageName : Option String := none
  figmaComponents : List ComponentSpec := []
  figmaNodes : List ComponentSpec := []
  sections : Option (List SectionSpec) := none
  images : List ImageSpec := []
deriving DecidableEq, Repr

/-- The observable outcome of the backend fetch in the handler: a network
failure, a non-ok HTTP status, an unsuccessful API result, or a page
spec. -/
inductive BackendResult where
  | fetchFailed (message : String)
  | httpError (status : Nat)
  | apiFailure (error : Option String)
  | apiSuccess (spec : FinalPageSpec)
deriving DecidableEq, Repr

/-- A Figma document page: its name and its top-level nodes. -/
structure FigPage where
  name : String
  nodes : SceneForest
deriving DecidableEq, Repr

/-- `convertFills` (code.ts): SOLID paints pass through, everything else
becomes the gray fallback solid. -/
def convertFills (fillSpecs : List Paint) : List Paint :=
  fillSpecs.map fun fillSpec =>
    match fillSpec with
    | .solid color => .solid color
    | _ => .solid ⟨0.5, 0.5, 0.5⟩

/-- `applyFrameProperties` (code.ts). -/
def applyFrameProperties (d : NodeData) (props : NodeProps) : NodeData :=
  let d := if truthyStr props.layoutMode then
      { d with layoutMode := props.layoutMode.getD d.layoutMode } else d
  let d := if truthyStr props.primaryAxisSizingMode then
      { d with primaryAxisSizingMode := props.primaryAxisSizingMode.getD d.primaryAxisSizingMode } else d
  let d := if truthyStr props.counterAxisSizingMode then
      { d with counterAxisSizingMode := props.counterAxisSizingMode.getD d.counterAxisSizingMode } else d
  let d := match props.itemSpacing with
    | some v => { d with itemSpacing := v } | none => d
  let d := match props.paddingTop with
    | some v => { d with paddingTop := v } | none => d
  let d := match props.paddingRight with
    | some v => { d with paddingRight := v } | none => d
  let d := match props.paddingBottom with
    | some v => { d with paddingBottom := v } | none => d
  let d := match props.paddingLeft with
    | some v => { d with paddingLeft := v } | none => d
  let d := match props.width with
    | some w => { d with width := w } | none => d
  let d := match props.fills with
    | some fs => if fs ≠ [] ∨ fs = [] then { d with fills := convertFills fs } else d
    | none => d
  match props.cornerRadius with
  | some cr => { d with cornerRadius := cr } | none => d

/-- `applyTextProperties` (code.ts): characters (with font load) on a JS
truthy value, then size, fills, alignment, width. -/
def applyTextProperties (d : NodeData) (props : NodeProps) : NodeData :=
  let d := if truthyStr props.characters then
      let d := match props.fontName with
        | some fn => { d with fontName := fn } | none => d
      { d with characters := props.characters.getD d.characters }
    else d
  let d := match props.fontSize with
    | some v => { d with fontSize := v } | none => d
  let d := match props.fills with
    | some fs => { d with fills := convertFills fs } | none => d
  let d := if truthyStr props.textAlignHorizontal then
      { d with textAlignHorizontal := props.textAlignHorizontal.getD d.textAlignHorizontal } else d
  match props.width with
  | some w => { d with width := w } | none => d

/-- `applyRectangleProperties` (code.ts). -/
def applyRectangleProperties (d : NodeData) (props : NodeProps) : NodeData :=
  let d := match props.width, props.height with
    | some w, some h => { d with width := w, height := h }
    | _, _ => d
  let d := match props.fills with
    | some fs => { d with fills := convertFills fs } | none => d
  match props.cornerRadius with
  | some cr => { d with cornerRadius := cr } | none => d

mutual
/-- `createFigmaNode` (code.ts): its own switch over FRAME, TEXT and
RECTANGLE; anything else logs a warning and returns null.  Only frames
recurse into children. -/
def createFigmaNode : ComponentSpec → Option SceneNode
  | .mk name ty props children =>
    match ty with
    | "FRAME" =>
        some (.node (applyFrameProperties { ntype := "FRAME", name := name } props)
          (createFigmaChildren children))
    | "TEXT" =>
        some (.node (applyTextProperties { ntype := "TEXT", name := name } props) .nil)
    | "RECTANGLE" =>
        some (.node (applyRectangleProperties { ntype := "RECTANGLE", name := name } props) .nil)
    | _ => none

/-- The child loop of `createFigmaNode`: recurse in order, skip nulls. -/
def createFigmaChildren : SpecForest → SceneForest
  | .nil => .nil
  | .cons c cs =>
    match createFigmaNode c with
    | some n => .cons n (createFigmaChildren cs)
    | none => createFigmaChildren cs
end

/-- The per-node mutation of the image-application loops: a node of a
matching type whose `role` plugin data equals the slot's role gets the
fetched image as its only fill; a failed fetch (`createImageAsync`
rejecting) is caught and leaves the node unchanged. -/
def applyImageToData (fetch : String → Option String) (types : List String)
    (img : ImageSpec) (d : NodeData) : NodeData :=
  if d.ntype ∈ types ∧ d.pluginRole = img.role ∧ img.url ≠ "" then
    match fetch img.url with
    | some h => { d with fills := [Paint.image "FILL" (some h)] }
    | none => d
  else d

mutual
/-- `findAllWithCriteria` + mutation, folded into one recursive pass over
a node and its descendants. -/
def applyImageToNode (fetch : String → Option String) (types : List String)
    (img : ImageSpec) : SceneNode → SceneNode
  | .node d cs => .node (applyImageToData fetch types img d)
      (applyImageToForest fetch types img cs)

def applyImageToForest (fetch : String → Option String) (types : List String)
    (img : ImageSpec) : SceneForest → SceneForest
  | .nil => .nil
  | .cons n t => .cons (applyImageToNode fetch types img n)
      (applyImageToForest fetch types img t)
end

/-- The outer slot loop shared by `applyGeneratedImages` (code.ts) and
`AIRenderer.applyAIGeneratedImages`: process every image slot in order
over the whole page. -/
def applyImagesPass (fetch : String → Option String) (types : List String)
    (images : List ImageSpec) (page : SceneForest) : SceneForest :=
  images.foldl (fun pg img => applyImageToForest fetch types img pg) page

/-- `applyGeneratedImages` (code.ts): searches RECTANGLE nodes only. -/
def applyGeneratedImages (fetch : String → Option String)
    (images : List ImageSpec) (page : SceneForest) : SceneForest :=
  applyImagesPass fetch ["RECTANGLE"] images page

namespace AIRenderer

/-- `AIRenderer.applyAIGeneratedImages` (renderers/ai-renderer.ts):
searches RECTANGLE and FRAME nodes. -/
def applyAIGeneratedImages (fetch : String → Option String)
    (images : List ImageSpec) (page : SceneForest) : SceneForest :=
  applyImagesPass fetch ["RECTANGLE", "FRAME"] images page

/-- The height accumulation of `optimizeContainerLayout`: JS-truthy child
heights are summed, with one `itemSpacing` after every child but the
last. -/
def sumChildHeights (spacing : ℚ) : List SceneNode → ℚ
  | [] => 0
  | [c] => if c.data.height ≠ 0 then c.data.height else 0
  | c :: c2 :: rest =>
      (if c.data.height ≠ 0 then c.data.height + spacing else 0) +
      sumChildHeights spacing (c2 :: rest)

/-- `AIRenderer.optimizeContainerLayout` (renderers/ai-renderer.ts). -/
def optimizeContainerLayout (container : SceneNode) : SceneNode :=
  match container with
  | .node d cs =>
      let totalHeight := sumChildHeights d.itemSpacing cs.toList +
        d.paddingTop + d.paddingBottom
      if totalHeight > 0 then .node { d with height := totalHeight } cs
      else .node d cs

/-- `AIRenderer.renderAIGeneratedPage` (renderers/ai-renderer.ts): a new
page holding the `AI_Generated_Container` root frame, each AI component
built by `FigmaNodeBuilder.createFromSpec` (nulls skipped), images
applied, then the container height optimized. -/
def renderAIGeneratedPage (fetch : String → Option String) (spec : FinalPageSpec) : FigPage :=
  let root : NodeData :=
    { ntype := "FRAME", name := "AI_Generated_Container"
      layoutMode := "VERTICAL", primaryAxisSizingMode := "AUTO"
      counterAxisSizingMode := "FIXED", itemSpacing := 0
      paddingTop := 0, paddingRight := 0, paddingBottom := 0, paddingLeft := 0
      width := 1440, height := 800
      fills := [Paint.solid ⟨1, 1, 1⟩] }
  let kids := SceneForest.ofList
    (spec.figmaComponents.filterMap FigmaNodeBuilder.createFromSpec)
  let pageNodes : SceneForest := .cons (.node root kids) .nil
  let pageNodes := if spec.images ≠ [] then
      applyAIGeneratedImages fetch spec.images pageNodes
    else pageNodes
  let pageNodes := match pageNodes with
    | .cons r t => .cons (optimizeContainerLayout r) t
    | .nil => .nil
  { name := jsOrStr spec.pageName "AI Generated Page", nodes := pageNodes }

/-- `AIRenderer.renderFallbackPage` (renderers/ai-renderer.ts). -/
def renderFallbackPage (pageName : String) : FigPage :=
  let container : NodeData :=
    { ntype := "FRAME", name := "Fallback_Container"
      layoutMode := "VERTICAL", itemSpacing := 32
      paddingTop := 80, paddingRight := 80, paddingBottom := 80, paddingLeft := 80
      width := 1200, height := 600
      fills := [Paint.solid ⟨0.98, 0.99, 1⟩] }
  let title : SceneNode := .node
    { ntype := "TEXT", name := "Fallback_Title", fontName := ⟨"Inter", "Bold"⟩
      fontSize := 48, characters := "AI Design Generation"
      fills := [Paint.solid ⟨0.12, 0.16, 0.22⟩] } .nil
  let subtitle : SceneNode := .node
    { ntype := "TEXT", name := "Fallback_Subtitle", fontName := ⟨"Inter", "Regular"⟩
      fontSize := 18
      characters := "AI-powered design generation is now active. The system will analyze your requirements and create custom designs."
      fills := [Paint.solid ⟨0.42, 0.45, 0.50⟩]
      textAlignHorizontal := "CENTER" } .nil
  { name := pageName
    nodes := .cons (.node container (SceneForest.ofList [title, subtitle])) .nil }

end AIRenderer

/-- `renderPage` (code.ts): create a page with a `Container` root frame,
render each section (emitting a `creating-<type>` progress event at 10%)
and append it. -/
def renderPage (spec : PageSpec) : FigPage × List CoreToUIMessage :=
  let events := spec.sections.map fun s =>
    CoreToUIMessage.renderProgress ("creating-" ++ s.type.toLower) 10
  let root : SceneNode := .node
    (createAutoLayoutFrame { name := some "Container", padding := some 24, spacing := some 24 })
    (SceneForest.ofList (spec.sections.map renderSection))
  ({ name := spec.pageName, nodes := .cons root .nil }, events)

/-- `renderGeneratedPage` (code.ts): creates a page; detailed
`figmaNodes` render through `createFigmaNode`, otherwise a present
`sections` array goes through `renderPage` (which creates a second page);
generated images are applied at the end. -/
def renderGeneratedPage (fetch : String → Option String) (spec : FinalPageSpec) :
    List FigPage × List CoreToUIMessage :=
  let pageA : FigPage := { name := jsOrStr spec.pageName "AI Generated Page", nodes := .nil }
  if spec.figmaNodes ≠ [] then
    let pageA := { pageA with
      nodes := SceneForest.ofList (spec.figmaNodes.filterMap createFigmaNode) }
    let pageA := if spec.images ≠ [] then
        { pageA with nodes := applyGeneratedImages fetch spec.images pageA.nodes }
      else pageA
    ([pageA], [])
  else
    match spec.sections with
    | some secs =>
        let (pageB, events) := renderPage { pageName := jsStr spec.pageName, sections := secs }
        let pageB := if spec.images ≠ [] then
            { pageB with nodes := applyGeneratedImages fetch spec.images pageB.nodes }
          else pageB
        ([pageA, pageB], events)
    | none =>
        let pageA := if spec.images ≠ [] then
            { pageA with nodes := applyGeneratedImages fetch spec.images pageA.nodes }
          else pageA
        ([pageA], [])

/-- The `GenerateFirstPage` branch of the `onUIMessage` handler
(code.ts): two early progress events, then the fetch; on success a
`rendering-ai-components` event at 80% and either the AI renderer (when
`figmaComponents` is non-empty) or the traditional renderer, then
`Rendered`; any failure is caught, posts a `BACKEND_ERROR` message,
renders the fallback page and posts `Rendered`. -/
def generateFirstPageRun (fetch : String → Option String) (b : BackendResult) :
    List FigPage × List CoreToUIMessage :=
  let pre : List CoreToUIMessage :=
    [.renderProgress "connecting-backend" 10,
     .renderProgress "analyzing-requirements" 5]
  match b with
  | .apiSuccess spec =>
      if spec.figmaComponents.length > 0 then
        ([AIRenderer.renderAIGeneratedPage fetch spec],
         pre ++ [.renderProgress "rendering-ai-components" 80, .rendered spec.pageName])
      else
        ((renderGeneratedPage fetch spec).1,
         pre ++ [.renderProgress "rendering-ai-components" 80] ++
           (renderGeneratedPage fetch spec).2 ++ [.rendered spec.pageName])
  | .fetchFailed message =>
      ([AIRenderer.renderFallbackPage "AI-Powered Design Demo"],
       pre ++ [.error "BACKEND_ERROR" ("Backend unavailable: " ++ message)
                 (some "Using fallback local generation"),
               .rendered (some "AI-Powered Design Demo")])
  | .httpError status =>
      ([AIRenderer.renderFallbackPage "AI-Powered Design Demo"],
       pre ++ [.error "BACKEND_ERROR"
                 ("Backend unavailable: Backend error: " ++ toString status)
                 (some "Using fallback local generation"),
               .rendered (some "AI-Powered Design Demo")])
  | .apiFailure err =>
      ([AIRenderer.renderFallbackPage "AI-Powered Design Demo"],
       pre ++ [.error "BACKEND_ERROR"
                 ("Backend unavailable: " ++ jsOrStr err "Page generation failed")
                 (some "Using fallback local generation"),
               .rendered (some "AI-Powered Design Demo")])

/-- The whole `onUIMessage` handler (code.ts): only `GenerateFirstPage`
has a branch; every other message type falls through and the handler
returns having done nothing. -/
def handleUIMessage (fetch : String → Option String) (b : BackendResult)
    (doc : List FigPage) (msg : UIToCoreMessage) : List FigPage × List CoreToUIMessage :=
  match msg with
  | .generateFirstPage _ =>
      let (pages, events) := generateFirstPageRun fetch b
      (doc ++ pages, events)
  | _ => (doc, [])

/-- The percent fields of the `RenderProgress` events in a message list,
in emission order. -/
def progressPercents (msgs : List CoreToUIMessage) : List Nat :=
  msgs.filterMap fun m =>
    match m with
    | .renderProgress _ p => some p
    | _ => none

/-- The progress-percent trace of one `GenerateFirstPage` run. -/
def generateFirstPageProgress (fetch : String → Option String) (b : BackendResult) :
    List Nat :=
  progressPercents (generateFirstPageRun fetch b).2

/-! Spec-modelled components.  The Scene Synchronization Engine's
`applyRegenerate` and `syncStyles`, the Workflow Orchestrator's retry
policy and the Verifier stage are backend/engine code of this repository
that is not present under the plugin sources; only their declarations
(the `Redesign` message type, `setPinned`, the `pinned`/`tokenRef`
plugin-data convention, the pipeline description in the project
documents) appear there.  They are modelled here from the
specification's §4.1, §4.5 and §4.6. -/

mutual
/-- Modelled from the spec: a live scene-graph node as §3 describes it —
identity, `role`, `pinned` and `tokenRef` tags, a style value derived
from its token, a property bag, and ordered children.  The engine code
that owns this structure is not under src/. -/
inductive SceneGraphNode where
  | mk (id : Nat) (role : String) (pinned : Bool) (tokenRef : Option String)
       (style : String) (props : List (String × String)) (children : SceneGraphForest)
deriving DecidableEq

inductive SceneGraphForest where
  | nil
  | cons (head : SceneGraphNode) (tail : SceneGraphForest)
deriving DecidableEq
end

def SceneGraphNode.id : SceneGraphNode → Nat
  | .mk i _ _ _ _ _ _ => i

def SceneGraphNode.role : SceneGraphNode → String
  | .mk _ r _ _ _ _ _ => r

def SceneGraphNode.pinned : SceneGraphNode → Bool
  | .mk _ _ p _ _ _ _ => p

def SceneGraphNode.tokenRef : SceneGraphNode → Option String
  | .mk _ _ _ t _ _ _ => t

def SceneGraphNode.style : SceneGraphNode → String
  | .mk _ _ _ _ s _ _ => s

def SceneGraphNode.props : SceneGraphNode → List (String × String)
  | .mk _ _ _ _ _ pr _ => pr

def SceneGraphNode.children : SceneGraphNode → SceneGraphForest
  | .mk _ _ _ _ _ _ c => c

def SceneGraphForest.append : SceneGraphForest → SceneGraphForest → SceneGraphForest
  | .nil, g => g
  | .cons n t, g => .cons n (SceneGraphForest.append t g)

mutual
/-- Does a subtree contain a pinned node (the node itself included)? -/
def containsPinnedNode : SceneGraphNode → Bool
  | .mk _ _ pinned _ _ _ children => pinned || containsPinnedForest children

def containsPinnedForest : SceneGraphForest → Bool
  | .nil => false
  | .cons n t => containsPinnedNode n || containsPinnedForest t
end

mutual
/-- Modelled from the spec: one node of the regenerated plan tree fed to
`applyRegenerate` — a role-tagged section/component plan with a property
bag and children (§4.6). -/
inductive PlanNode where
  | mk (role : String) (props : List (String × String)) (children : PlanForest)
deriving DecidableEq

inductive PlanForest where
  | nil
  | cons (head : PlanNode) (tail : PlanForest)
deriving DecidableEq
end

def PlanNode.role : PlanNode → String
  | .mk r _ _ => r

def PlanNode.props : PlanNode → List (String × String)
  | .mk _ p _ => p

def PlanNode.children : PlanNode → PlanForest
  | .mk _ _ c => c

/-- Roles of the pinned nodes at one level of the live graph. -/
def pinnedRolesOf : SceneGraphForest → List String
  | .nil => []
  | .cons n t =>
      (if n.pinned then [n.role] else []) ++ pinnedRolesOf t

/-- Roles present at one level of the live graph. -/
def rolesOf : SceneGraphForest → List String
  | .nil => []
  | .cons n t => n.role :: rolesOf t

/-- Prune plan nodes whose role is in the excluded list (§4.6: "the new
tree is pruned of any section matching a pinned node's role before
diffing"). -/
def PlanForest.withoutRoles (exclude : List String) : PlanForest → PlanForest
  | .nil => .nil
  | .cons p t =>
      if p.role ∈ exclude then PlanForest.withoutRoles exclude t
      else .cons p (PlanForest.withoutRoles exclude t)

/-- Find the plan node with a matching role, if any. -/
def PlanForest.findRole (r : String) : PlanForest → Option PlanNode
  | .nil => none
  | .cons p t => if p.role = r then some p else PlanForest.findRole r t

mutual
/-- A freshly created node for a plan section with no live match (id
assignment is unspecified by the spec; created nodes use id 0 and carry
no tags). -/
def freshFromPlan : PlanNode → SceneGraphNode
  | .mk role props children => .mk 0 role false none "" props (freshForestFromPlan children)

def freshForestFromPlan : PlanForest → SceneGraphForest
  | .nil => .nil
  | .cons p t => .cons (freshFromPlan p) (freshForestFromPlan t)
end

mutual
/-- Modelled from the spec: `applyRegenerate` of the Scene
Synchronization Engine (§4.6), absent from src/.  At each level the plan
is pruned of roles matching pinned nodes; a pinned live node (and its
subtree) is kept untouched; a role-matched node is overwritten in place
(identity kept, properties replaced, children diffed recursively); a
stale node is removed unless its subtree contains a pinned node (§3:
pinned nodes are never destroyed by regeneration); plan roles with no
live match are created fresh. -/
def applyRegenerate (live : SceneGraphForest) (plan : PlanForest) : SceneGraphForest :=
  let pruned := PlanForest.withoutRoles (pinnedRolesOf live) plan
  SceneGraphForest.append (regenUpdate live pruned)
    (freshForestFromPlan (PlanForest.withoutRoles (rolesOf live) pruned))
termination_by (sizeOf live, 1)

/-- The walk over the existing live nodes of one level. -/
def regenUpdate : SceneGraphForest → PlanForest → SceneGraphForest
  | .nil, _ => .nil
  | .cons (.mk i role pinned tokenRef style props children) rest, pruned =>
      if pinned then
        .cons (.mk i role pinned tokenRef style props children) (regenUpdate rest pruned)
      else
        match PlanForest.findRole role pruned with
        | some p =>
            .cons (.mk i role pinned tokenRef style p.props
              (applyRegenerate children p.children)) (regenUpdate rest pruned)
        | none =>
            if containsPinnedNode (.mk i role pinned tokenRef style props children) then
              .cons (.mk i role pinned tokenRef style props children) (regenUpdate rest pruned)
            else regenUpdate rest pruned
termination_by f _ => (sizeOf f, 0)
end

/-- Membership of a node anywhere in a scene-graph forest (at this level
or inside some node's subtree). -/
inductive MemNodeF : SceneGraphNode → SceneGraphForest → Prop where
  | here (n : SceneGraphNode) (rest : SceneGraphForest) : MemNodeF n (.cons n rest)
  | there (n m : SceneGraphNode) (rest : SceneGraphForest) :
      MemNodeF n rest → MemNodeF n (.cons m rest)
  | inside (n m : SceneGraphNode) (rest : SceneGraphForest) :
      MemNodeF n m.children → MemNodeF n (.cons m rest)

/-- Token lookup in a DesignSystem version (token id to current value). -/
def lookupToken (ds : List (String × String)) (t : String) : Option String :=
  match ds with
  | [] => none
  | (k, v) :: rest => if k = t then some v else lookupToken rest t

mutual
/-- Modelled from the spec: `syncStyles` of the Scene Synchronization
Engine (§4.6), absent from src/.  Every node carrying a `tokenRef` gets
the referenced token's current value reapplied; nodes without a
`tokenRef` are not touched; an unresolvable token is a no-op (§7). -/
def syncNode (ds : List (String × String)) : SceneGraphNode → SceneGraphNode
  | .mk i role pinned tokenRef style props children =>
      let style2 :=
        match tokenRef with
        | some t =>
            match lookupToken ds t with
            | some v => v
            | none => style
        | none => style
      .mk i role pinned tokenRef style2 props (syncForest ds children)

def syncForest (ds : List (String × String)) : SceneGraphForest → SceneGraphForest
  | .nil => .nil
  | .cons n t => .cons (syncNode ds n) (syncForest ds t)
end

/-- The stage error taxonomy of §7. -/
inductive StageErrorKind where
  | Transient
  | Validation
  | Fatal
deriving DecidableEq, Repr

/-- The outcome of one wrapped stage: success, fallback substituted (run
degraded), or run aborted. -/
inductive StageOutcome (α : Type) where
  | success (value : α)
  | fallbackUsed (value : α)
  | aborted (err : StageErrorKind)
deriving DecidableEq, Repr

/-- Up to 3 attempts (§4.1). -/
def maxAttempts : Nat := 3

/-- Exponential backoff: the delay before retry `i + 1` doubles the
previous one. -/
def backoffDelay (base i : Nat) : Nat := base * 2 ^ i

/-- Modelled from the spec: the retry wrapper of the Workflow
Orchestrator (§4.1), backend code absent from src/.  `stage i` is the
result of attempt `i`.  Returns the outcome, the number of attempts
consumed, and the backoff delays slept between attempts.  Transient
errors retry up to `maxAttempts` attempts with exponential backoff;
Validation errors substitute the deterministic fallback with no retry;
Fatal errors abort immediately with no retry. -/
def runAttempts {α : Type} (stage : Nat → Except StageErrorKind α) (fallback : α)
    (base : Nat) (i : Nat) : StageOutcome α × Nat × List Nat :=
  match stage i with
  | .ok a => (.success a, i + 1, [])
  | .error .Fatal => (.aborted .Fatal, i + 1, [])
  | .error .Validation => (.fallbackUsed fallback, i + 1, [])
  | .error .Transient =>
      if i + 1 < maxAttempts then
        let r := runAttempts stage fallback base (i + 1)
        (r.1, r.2.1, backoffDelay base i :: r.2.2)
      else (.aborted .Transient, i + 1, [])
termination_by maxAttempts - i
decreasing_by omega

/-- The wrapped stage run starting at attempt 0. -/
def runStageWithRetry {α : Type} (stage : Nat → Except StageErrorKind α) (fallback : α)
    (base : Nat) : StageOutcome α × Nat × List Nat :=
  runAttempts stage fallback base 0

/-- A run is flagged degraded when the stage outcome used the fallback. -/
def runDegraded {α : Type} : StageOutcome α → Bool
  | .fallbackUsed _ => true
  | _ => false

mutual
/-- Total node count of a ComponentSpec tree. -/
def specSize : ComponentSpec → Nat
  | .mk _ _ _ children => 1 + specForestSize children

def specForestSize : SpecForest → Nat
  | .nil => 0
  | .cons c cs => specSize c + specForestSize cs
end

/-- Membership of a spec node anywhere in a spec forest. -/
inductive MemSpecF : ComponentSpec → SpecForest → Prop where
  | here (c : ComponentSpec) (rest : SpecForest) : MemSpecF c (.cons c rest)
  | there (c m : ComponentSpec) (rest : SpecForest) :
      MemSpecF c rest → MemSpecF c (.cons m rest)
  | inside (c m : ComponentSpec) (rest : SpecForest) :
      MemSpecF c m.children → MemSpecF c (.cons m rest)

/-- The configured node-count ceiling (default 400, §4.5). -/
def nodeCeiling : Nat := 400

/-- Modelled from the spec: the structural part of the Verifier stage
(§4.5), backend code (`backend/agents/verifier_agent.py`) absent from
src/.  A composed tree within the node ceiling is accepted; a tree over
the ceiling fails the stage with a Validation error.  (The tree data
model itself makes parent/child cycles unrepresentable; acyclicity of
accepted trees is proved as no node being its own proper descendant.) -/
def verifyStage (tree : ComponentSpec) : Except StageErrorKind ComponentSpec :=
  if specSize tree ≤ nodeCeiling then .ok tree else .error .Validation

/-! Concrete fixtures used by the witness theorems. -/

/-- A one-component page spec returned by a successful backend call. -/
def demoFinalSpec : FinalPageSpec :=
  { pageName := some "Demo", figmaComponents := [ComponentSpec.mk "Root" "FRAME" {} .nil] }

/-- An image-fetch oracle that succeeds only on `good.png`. -/
def demoFetch : String → Option String :=
  fun url => if url = "good.png" then some "hash1" else none

/-- An image slot whose fetch fails. -/
def demoBadSlot : ImageSpec := { role := "hero", url := "bad.png" }

/-- An image slot whose fetch succeeds. -/
def demoGoodSlot : ImageSpec := { role := "feature", url := "good.png" }

/-- A page with one rectangle per role. -/
def demoPage : SceneForest :=
  .cons (.node { ntype := "RECTANGLE", name := "HeroImg", pluginRole := "hero" } .nil)
    (.cons (.node { ntype := "RECTANGLE", name := "FeatImg", pluginRole := "feature" } .nil) .nil)

/-- A live scene graph with a pinned header and an unpinned hero. -/
def demoLive : SceneGraphForest :=
  .cons (.mk 1 "header" true none "" [("fill", "blue")] .nil)
    (.cons (.mk 2 "hero" false none "" [("fill", "red")] .nil) .nil)

/-- A regeneration plan covering both roles. -/
def demoPlan : PlanForest :=
  .cons (.mk "header" [("fill", "green")] .nil)
    (.cons (.mk "hero" [("fill", "yellow")] .nil) .nil)

/-- A node carrying no tokenRef, for the syncStyles gate. -/
def demoUntokened : SceneGraphNode := .mk 7 "hero" false none "plain" [] .nil

/-- A stage that fails twice with a timeout and then succeeds. -/
def demoStage : Nat → Except StageErrorKind Nat :=
  fun i => if i < 2 then .error .Transient else .ok 42

/-- A small accepted tree for the verifier witness. -/
def demoTree : ComponentSpec :=
  ComponentSpec.mk "Page" "FRAME" {} (.cons (ComponentSpec.mk "Title" "TEXT" {} .nil) .nil)

/-- The paint-validity predicate as the specification claim states it,
named separately so the source-derived `validPaint` filter can be
compared against it. -/
def claimPaintValid : Paint → Prop
  | .solid c => 0 ≤ c.r ∧ c.r ≤ 1 ∧ 0 ≤ c.g ∧ c.g ≤ 1 ∧ 0 ≤ c.b ∧ c.b ≤ 1
  | .gradient _ stops =>
      ∀ st ∈ stops,
        (0 ≤ st.color.r ∧ st.color.r ≤ 1 ∧ 0 ≤ st.color.g ∧ st.color.g ≤ 1 ∧
         0 ≤ st.color.b ∧ st.color.b ≤ 1 ∧ 0 ≤ st.color.a ∧ st.color.a ≤ 1) ∧
        0 ≤ st.position ∧ st.position ≤ 1
  | .image _ h => h ≠ none

/-- A pinned header node (fixture). -/
def demoHeader : SceneGraphNode := .mk 1 "header" true none "" [("fill", "blue")] .nil

/-- An unpinned hero node (fixture). -/
def demoHero : SceneGraphNode := .mk 2 "hero" false none "" [("fill", "red")] .nil

/-! Helper lemmas. -/

namespace FigmaNodeBuilder

lemma applyPosition_fills (d : NodeData) (props : NodeProps) :
    (applyPosition d props).fills = d.fills := by
  unfold applyPosition; split <;> rfl

lemma applySize_fills (d : NodeData) (props : NodeProps) :
    (applySize d props).fills = d.fills := by
  unfold applySize; split <;> rfl

lemma applyStrokes_fills (d : NodeData) (props : NodeProps) :
    (applyStrokes d props).fills = d.fills := by
  unfold applyStrokes
  split
  · dsimp only; split <;> rfl
  · rfl

lemma applyCorner_fills (d : NodeData) (props : NodeProps) :
    (applyCorner d props).fills = d.fills := by
  unfold applyCorner
  split
  · split <;> rfl
  · rfl

lemma applyEffects_fills (d : NodeData) (props : NodeProps) :
    (applyEffects d props).fills = d.fills := by
  unfold applyEffects
  split
  · dsimp only; split <;> rfl
  · rfl

lemma applyAutoLayout_fills (d : NodeData) (props : NodeProps) :
    (applyAutoLayout d props).fills = d.fills := by
  unfold applyAutoLayout; split <;> rfl

lemma applyText_fills (d : NodeData) (props : NodeProps) :
    (applyText d props).fills = d.fills := by
  unfold applyText; split <;> rfl

lemma applyFills_char (d : NodeData) (props : NodeProps) :
    (applyFills d props).fills =
      (match props.fills with
       | some fs => if (validatePaints fs).length > 0 then validatePaints fs else d.fills
       | none => d.fills) := by
  unfold applyFills
  split
  · dsimp only; split <;> simp_all
  · rfl

lemma applyProperties_fills_char (d : NodeData) (props : NodeProps) :
    (applyProperties d props).fills =
      (match props.fills with
       | some fs => if (validatePaints fs).length > 0 then validatePaints fs else d.fills
       | none => d.fills) := by
  unfold applyProperties
  rw [applyText_fills, applyAutoLayout_fills, applyEffects_fills, applyCorner_fills,
    applyStrokes_fills, applyFills_char]
  rw [applySize_fills, applyPosition_fills]

lemma applyPosition_strokes (d : NodeData) (props : NodeProps) :
    (applyPosition d props).strokes = d.strokes ∧
    (applyPosition d props).strokeWeight = d.strokeWeight := by
  unfold applyPosition; split <;> exact ⟨rfl, rfl⟩

lemma applySize_strokes (d : NodeData) (props : NodeProps) :
    (applySize d props).strokes = d.strokes ∧
    (applySize d props).strokeWeight = d.strokeWeight := by
  unfold applySize; split <;> exact ⟨rfl, rfl⟩

lemma applyFills_strokes (d : NodeData) (props : NodeProps) :
    (applyFills d props).strokes = d.strokes ∧
    (applyFills d props).strokeWeight = d.strokeWeight := by
  unfold applyFills
  split
  · dsimp only; split <;> exact ⟨rfl, rfl⟩
  · exact ⟨rfl, rfl⟩

lemma applyCorner_strokes (d : NodeData) (props : NodeProps) :
    (applyCorner d props).strokes = d.strokes := by
  unfold applyCorner
  split
  · split <;> rfl
  · rfl

lemma applyEffects_strokes (d : NodeData) (props : NodeProps) :
    (applyEffects d props).strokes = d.strokes := by
  unfold applyEffects
  split
  · dsimp only; split <;> rfl
  · rfl

lemma applyAutoLayout_strokes (d : NodeData) (props : NodeProps) :
    (applyAutoLayout d props).strokes = d.strokes := by
  unfold applyAutoLayout; split <;> rfl

lemma applyText_strokes (d : NodeData) (props : NodeProps) :
    (applyText d props).strokes = d.strokes := by
  unfold applyText; split <;> rfl

lemma applyStrokes_char (d : NodeData) (props : NodeProps) :
    (applyStrokes d props).strokes =
      (match props.strokes, props.strokeWeight with
       | some ss, some _ => if (validatePaints ss).length > 0 then validatePaints ss else d.strokes
       | _, _ => d.strokes) := by
  unfold applyStrokes
  split
  · dsimp only; split <;> simp_all
  · rfl

lemma applyProperties_strokes_char (d : NodeData) (props : NodeProps) :
    (applyProperties d props).strokes =
      (match props.strokes, props.strokeWeight with
       | some ss, some _ => if (validatePaints ss).length > 0 then validatePaints ss else d.strokes
       | _, _ => d.strokes) := by
  unfold applyProperties
  rw [applyText_strokes, applyAutoLayout_strokes, applyEffects_strokes, applyCorner_strokes,
    applyStrokes_char, (applyFills_strokes _ _).1, (applySize_strokes _ _).1,
    (applyPosition_strokes _ _).1]

lemma initialNode_none_iff (ty : String) :
    initialNode ty = none ↔ ty ∉ ["FRAME", "TEXT", "RECTANGLE", "ELLIPSE"] := by
  unfold initialNode
  split <;> simp_all

end FigmaNodeBuilder

lemma validPaint_sound (p : Paint) (h : FigmaNodeBuilder.validPaint p = true) :
    claimPaintValid p := by
  cases p with
  | solid c =>
      simp [FigmaNodeBuilder.validPaint, FigmaNodeBuilder.isValidRGB] at h
      simp [claimPaintValid]
      tauto
  | gradient kind stops =>
      simp only [FigmaNodeBuilder.validPaint, List.all_eq_true] at h
      simp only [claimPaintValid]
      intro st hst
      have h2 := h st hst
      simp only [Bool.and_eq_true, decide_eq_true_eq, FigmaNodeBuilder.isValidRGBA,
        FigmaNodeBuilder.isValidRGB] at h2
      tauto
  | image sm ih =>
      simp [FigmaNodeBuilder.validPaint, Option.isSome_iff_ne_none] at h
      simpa [claimPaintValid] using h

lemma applyImageToData_fetchFail (fetch : String → Option String) (types : List String)
    (img : ImageSpec) (d : NodeData) (h : fetch img.url = none) :
    applyImageToData fetch types img d = d := by
  unfold applyImageToData
  split
  · rw [h]
  · rfl

mutual
lemma applyImageToNode_fetchFail (fetch : String → Option String) (types : List String)
    (img : ImageSpec) (h : fetch img.url = none) :
    ∀ n, applyImageToNode fetch types img n = n
  | .node d cs => by
      simp only [applyImageToNode]
      rw [applyImageToData_fetchFail fetch types img d h,
        applyImageToForest_fetchFail fetch types img h cs]

lemma applyImageToForest_fetchFail (fetch : String → Option String) (types : List String)
    (img : ImageSpec) (h : fetch img.url = none) :
    ∀ f, applyImageToForest fetch types img f = f
  | .nil => rfl
  | .cons n t => by
      simp only [applyImageToForest]
      rw [applyImageToNode_fetchFail fetch types img h n,
        applyImageToForest_fetchFail fetch types img h t]
end

lemma containsPinnedNode_eq (n : SceneGraphNode) :
    containsPinnedNode n = (n.pinned || containsPinnedForest n.children) := by
  cases n; rfl

lemma memF_append_left (n : SceneGraphNode) (g : SceneGraphForest) :
    ∀ {f : SceneGraphForest}, MemNodeF n f → MemNodeF n (f.append g) := by
  intro f h
  induction h with
  | here rest => exact MemNodeF.here n (SceneGraphForest.append rest g)
  | there m rest hr ih => exact MemNodeF.there n m (SceneGraphForest.append rest g) ih
  | inside m rest hc _ => exact MemNodeF.inside n m (SceneGraphForest.append rest g) hc

lemma containsPinnedForest_of_mem (n : SceneGraphNode) (hpin : n.pinned = true) :
    ∀ {f : SceneGraphForest}, MemNodeF n f → containsPinnedForest f = true := by
  intro f h
  induction h with
  | here rest =>
      simp [containsPinnedForest, containsPinnedNode_eq, hpin]
  | there m rest hr ih =>
      simp [containsPinnedForest, ih]
  | inside m rest hc ih =>
      simp [containsPinnedForest, containsPinnedNode_eq, ih]

lemma regenUpdate_cons (n : SceneGraphNode) (rest : SceneGraphForest) (pruned : PlanForest) :
    regenUpdate (.cons n rest) pruned =
      (if n.pinned then .cons n (regenUpdate rest pruned)
       else
        match PlanForest.findRole n.role pruned with
        | some p =>
            .cons (SceneGraphNode.mk n.id n.role n.pinned n.tokenRef n.style p.props
              (applyRegenerate n.children p.children)) (regenUpdate rest pruned)
        | none =>
            if containsPinnedNode n then .cons n (regenUpdate rest pruned)
            else regenUpdate rest pruned) := by
  rcases n with ⟨i, role, pb, tr, st, pr, ch⟩
  simp [regenUpdate, SceneGraphNode.pinned, SceneGraphNode.role, SceneGraphNode.id,
    SceneGraphNode.tokenRef, SceneGraphNode.style, SceneGraphNode.children]

lemma regenUpdate_preserves_pinned_mem (n : SceneGraphNode) (hpin : n.pinned = true) :
    ∀ {f : SceneGraphForest} (pruned : PlanForest),
      MemNodeF n f → MemNodeF n (regenUpdate f pruned) := by
  intro f pruned h
  induction h generalizing pruned with
  | here rest =>
      rw [regenUpdate_cons, if_pos hpin]
      exact MemNodeF.here _ _
  | there m rest hr ih =>
      rw [regenUpdate_cons]
      split
      · exact MemNodeF.there _ _ _ (ih pruned)
      · split
        · exact MemNodeF.there _ _ _ (ih pruned)
        · split
          · exact MemNodeF.there _ _ _ (ih pruned)
          · exact ih pruned
  | inside m rest hc ih =>
      rw [regenUpdate_cons]
      split
      · exact MemNodeF.inside _ _ _ hc
      · split
        · refine MemNodeF.inside _ _ _ ?_
          simp only [SceneGraphNode.children]
          simp only [applyRegenerate]
          exact memF_append_left _ _ (ih _)
        · split
          · exact MemNodeF.inside _ _ _ hc
          · next hcp =>
              exfalso
              have hcf : containsPinnedForest m.children = true :=
                containsPinnedForest_of_mem n hpin hc
              rw [containsPinnedNode_eq] at hcp
              simp [hcf] at hcp

mutual
lemma syncNode_idem (ds : List (String × String)) :
    ∀ n, syncNode ds (syncNode ds n) = syncNode ds n
  | .mk i role p tr style props children => by
      cases tr with
      | none => simp [syncNode, syncForest_idem ds children]
      | some t =>
          cases h : lookupToken ds t with
          | none => simp [syncNode, h, syncForest_idem ds children]
          | some v => simp [syncNode, h, syncForest_idem ds children]

lemma syncForest_idem (ds : List (String × String)) :
    ∀ f, syncForest ds (syncForest ds f) = syncForest ds f
  | .nil => rfl
  | .cons n t => by
      simp only [syncForest]
      rw [syncNode_idem ds n, syncForest_idem ds t]
end

lemma specSize_children_eq (c : ComponentSpec) :
    specSize c = 1 + specForestSize c.children := by
  cases c; rfl

lemma memSpecF_size (c : ComponentSpec) :
    ∀ {f : SpecForest}, MemSpecF c f → specSize c ≤ specForestSize f := by
  intro f h
  induction h with
  | here rest => simp [specForestSize]
  | there m rest hr ih => simp [specForestSize]; omega
  | inside m rest hc ih =>
      have hm := specSize_children_eq m
      simp [specForestSize]
      omega

/-! The claim theorems. -/

/-- Claim C1: for every regenerate operation and every live scene node
whose `pinned` tag is true, `applyRegenerate` leaves that node and every
node in its subtree unchanged — the identical node value (same identity,
properties, and children) occurs in the regenerated graph.  Spec-modelled:
the engine code is absent from src/. -/
theorem applyRegenerate_preserves_pinned (live : SceneGraphForest) (plan : PlanForest)
    (n : SceneGraphNode) (hmem : MemNodeF n live) (hpin : n.pinned = true) :
    MemNodeF n (applyRegenerate live plan) := by
  simp only [applyRegenerate]
  exact memF_append_left _ _ (regenUpdate_preserves_pinned_mem n hpin _ hmem)

/-- Witness for C1: the pinned header of a concrete two-section page
survives a regeneration that replaces both roles. -/
theorem applyRegenerate_preserves_pinned_witness :
    demoHeader.pinned = true ∧
    MemNodeF demoHeader (applyRegenerate demoLive demoPlan) :=
  ⟨by decide,
   applyRegenerate_preserves_pinned demoLive demoPlan demoHeader
     (MemNodeF.here demoHeader (.cons demoHero .nil)) (by decide)⟩

/-- Claim C2: `syncStyles` is idempotent — applying the same DesignSystem
version twice equals applying it once — and it never modifies a node
carrying no `tokenRef`: such a node keeps its identity, tags, style and
properties, only its children being recursed.  Spec-modelled: the engine
code is absent from src/. -/
theorem syncStyles_idempotent_and_tokenRef_gated (ds : List (String × String))
    (f : SceneGraphForest) (n : SceneGraphNode) :
    syncForest ds (syncForest ds f) = syncForest ds f ∧
    (n.tokenRef = none →
      syncNode ds n = SceneGraphNode.mk n.id n.role n.pinned n.tokenRef n.style n.props
        (syncForest ds n.children)) := by
  refine ⟨syncForest_idem ds f, ?_⟩
  intro h
  rcases n with ⟨i, role, p, tr, style, props, children⟩
  simp only [SceneGraphNode.tokenRef] at h
  subst h
  simp [syncNode, SceneGraphNode.id, SceneGraphNode.role, SceneGraphNode.pinned,
    SceneGraphNode.tokenRef, SceneGraphNode.style, SceneGraphNode.props,
    SceneGraphNode.children]

/-- Witness for C2: a node with no tokenRef is returned with all its own
fields unchanged under a concrete DesignSystem version. -/
theorem syncStyles_idempotent_and_tokenRef_gated_witness :
    syncNode [("primary", "blue")] demoUntokened =
      SceneGraphNode.mk demoUntokened.id demoUntokened.role demoUntokened.pinned
        demoUntokened.tokenRef demoUntokened.style demoUntokened.props
        (syncForest [("primary", "blue")] demoUntokened.children) :=
  (syncStyles_idempotent_and_tokenRef_gated [("primary", "blue")] .nil demoUntokened).2 rfl

/-- Claim C3: the stage retry policy — a Fatal error aborts immediately
after one attempt with no retry; a Validation error is never retried and
substitutes the deterministic fallback, flagging the run degraded; a
Transient error is retried up to 3 attempts with exponentially growing
backoff delays.  Spec-modelled: the orchestrator is backend code absent
from src/. -/
theorem stage_retry_policy {α : Type} (stage : Nat → Except StageErrorKind α)
    (fallback : α) (base : Nat) :
    (stage 0 = .error .Fatal →
      runStageWithRetry stage fallback base = (.aborted .Fatal, 1, [])) ∧
    (stage 0 = .error .Validation →
      runStageWithRetry stage fallback base = (.fallbackUsed fallback, 1, []) ∧
      runDegraded (runStageWithRetry stage fallback base).1 = true) ∧
    (∀ a, stage 0 = .error .Transient → stage 1 = .error .Transient → stage 2 = .ok a →
      runStageWithRetry stage fallback base =
        (.success a, 3, [backoffDelay base 0, backoffDelay base 1])) ∧
    (stage 0 = .error .Transient → stage 1 = .error .Transient →
      stage 2 = .error .Transient →
      runStageWithRetry stage fallback base =
        (.aborted .Transient, 3, [backoffDelay base 0, backoffDelay base 1])) ∧
    (∀ i, backoffDelay base (i + 1) = 2 * backoffDelay base i) := by
  refine ⟨?_, ?_, ?_, ?_, ?_⟩
  · intro h0
    simp [runStageWithRetry, runAttempts, h0]
  · intro h0
    constructor
    · simp [runStageWithRetry, runAttempts, h0]
    · simp [runStageWithRetry, runAttempts, h0, runDegraded]
  · intro a h0 h1 h2
    simp [runStageWithRetry, runAttempts, h0, h1, h2, maxAttempts]
  · intro h0 h1 h2
    simp [runStageWithRetry, runAttempts, h0, h1, h2, maxAttempts]
  · intro i
    simp [backoffDelay, pow_succ]
    ring

/-- Witness for C3: a stage that times out twice and then succeeds is
retried to success in exactly 3 attempts with doubling delays. -/
theorem stage_retry_policy_witness :
    runStageWithRetry demoStage 0 100 =
      (StageOutcome.success 42, 3, [backoffDelay 100 0, backoffDelay 100 1]) :=
  (stage_retry_policy demoStage 0 100).2.2.1 42 rfl rfl rfl

/-- Claim C4 counterexample: the emitted percent sequence of a
`GenerateFirstPage` run is not monotonic — the handler emits
`connecting-backend` at 10 and then `analyzing-requirements` at 5, so the
second event's percent is below the first's, falsifying the claim at this
concrete run. -/
theorem generateFirstPage_progress_not_monotonic :
    ¬ List.Sorted (· ≤ ·)
      (generateFirstPageProgress (fun _ => none) (BackendResult.httpError 500)) := by
  decide

/-- Claim C4 as amended: every `GenerateFirstPage` run begins with
`(connecting-backend, 10)` followed by `(analyzing-requirements, 5)` — so
the percent field is not monotonic — and in the AI-component success path
the full percent trace is exactly `[10, 5, 80]`, in handler execution
order, nondecreasing from the second event on. -/
theorem generateFirstPage_progress_trace (fetch : String → Option String)
    (b : BackendResult) :
    (generateFirstPageProgress fetch b).take 2 = [10, 5] ∧
    (∀ spec, b = BackendResult.apiSuccess spec → 0 < spec.figmaComponents.length →
      generateFirstPageProgress fetch b = [10, 5, 80]) := by
  constructor
  · cases b with
    | apiSuccess spec =>
        by_cases hc : spec.figmaComponents.length > 0
        · simp [generateFirstPageProgress, generateFirstPageRun, hc, progressPercents]
        · simp [generateFirstPageProgress, generateFirstPageRun, hc, progressPercents]
    | fetchFailed m =>
        simp [generateFirstPageProgress, generateFirstPageRun, progressPercents]
    | httpError s =>
        simp [generateFirstPageProgress, generateFirstPageRun, progressPercents]
    | apiFailure e =>
        simp [generateFirstPageProgress, generateFirstPageRun, progressPercents]
  · rintro spec rfl hlen
    simp [generateFirstPageProgress, generateFirstPageRun, hlen, progressPercents]

/-- Witness for the amended C4: a successful one-component run produces
the percent trace [10, 5, 80]. -/
theorem generateFirstPage_progress_trace_witness :
    0 < demoFinalSpec.figmaComponents.length ∧
    generateFirstPageProgress demoFetch (BackendResult.apiSuccess demoFinalSpec) =
      [10, 5, 80] :=
  ⟨by decide,
   (generateFirstPage_progress_trace demoFetch _).2 demoFinalSpec rfl (by decide)⟩

/-- Claim C5: a composed tree accepted by the verification stage has node
count at or below the configured ceiling (default 400) and contains no
cycle — no node of it is its own proper descendant; a tree over the
ceiling fails the stage with a Validation error instead of being applied.
Spec-modelled: the verifier is backend code absent from src/. -/
theorem verifyStage_bounds (t : ComponentSpec) :
    (∀ t2, verifyStage t = .ok t2 →
      specSize t2 ≤ nodeCeiling ∧
      (∀ c, MemSpecF c t2.children → ¬ MemSpecF c c.children) ∧
      ¬ MemSpecF t2 t2.children) ∧
    (nodeCeiling < specSize t → verifyStage t = .error .Validation) := by
  constructor
  · intro t2 hok
    unfold verifyStage at hok
    split at hok
    · cases hok
      have hle : specSize t ≤ nodeCeiling := by assumption
      refine ⟨hle, ?_, ?_⟩
      · intro c _ hself
        have h1 := memSpecF_size c hself
        have h2 := specSize_children_eq c
        omega
      · intro hself
        have h1 := memSpecF_size t hself
        have h2 := specSize_children_eq t
        omega
    · exact absurd hok (by simp)
  · intro hlt
    unfold verifyStage
    rw [if_neg (by omega)]

/-- Witness for C5: a two-node tree passes verification and is within the
ceiling. -/
theorem verifyStage_bounds_witness :
    specSize demoTree ≤ nodeCeiling :=
  (((verifyStage_bounds demoTree).1) demoTree rfl).1

/-- Claim C6 counterexample: a `ComponentSpec` tagged GROUP — one of the
five kinds the claim says must construct a node — returns null from
`createFromSpec`, whose switch has no GROUP case. -/
theorem createFromSpec_group_returns_null :
    FigmaNodeBuilder.createFromSpec (ComponentSpec.mk "Group" "GROUP" {} .nil) = none := rfl

/-- Claim C6 as amended: `createFromSpec` creates a scene node exactly for
the type tags FRAME, TEXT, RECTANGLE and ELLIPSE; every other tag — GROUP
included — is rejected at construction with a null result. -/
theorem createFromSpec_kind_gate (s : ComponentSpec) :
    (s.type ∈ ["FRAME", "TEXT", "RECTANGLE", "ELLIPSE"] →
      ∃ n, FigmaNodeBuilder.createFromSpec s = some n) ∧
    (s.type ∉ ["FRAME", "TEXT", "RECTANGLE", "ELLIPSE"] →
      FigmaNodeBuilder.createFromSpec s = none) := by
  obtain ⟨name, ty, props, children⟩ := s
  rw [FigmaNodeBuilder.createFromSpec]
  simp only [ComponentSpec.type]
  rcases hinit : FigmaNodeBuilder.initialNode ty with _ | d
  · have hni : ty ∉ ["FRAME", "TEXT", "RECTANGLE", "ELLIPSE"] :=
      (FigmaNodeBuilder.initialNode_none_iff ty).mp hinit
    simp_all
  · have hmem : ¬ (ty ∉ ["FRAME", "TEXT", "RECTANGLE", "ELLIPSE"]) := by
      intro hn
      rw [(FigmaNodeBuilder.initialNode_none_iff ty).mpr hn] at hinit
      exact Option.noConfusion hinit
    simp_all

/-- Witness for the amended C6: a FRAME spec constructs a node. -/
theorem createFromSpec_kind_gate_witness :
    "FRAME" ∈ ["FRAME", "TEXT", "RECTANGLE", "ELLIPSE"] ∧
    ∃ n, FigmaNodeBuilder.createFromSpec (ComponentSpec.mk "Root" "FRAME" {} .nil) = some n :=
  ⟨by decide, (createFromSpec_kind_gate (ComponentSpec.mk "Root" "FRAME" {} .nil)).1 (by decide)⟩

/-- Claim C7: a section whose type matches none of the six templates does
not fail rendering — `renderSection` returns the generic placeholder: an
auto-layout frame named after the section's type whose single child is a
text label carrying that type. -/
theorem renderSection_unknown_type_placeholder (sec : SectionSpec)
    (h : sec.type ∉ ["Header", "Hero", "Features", "CTA", "Footer", "Testimonials"]) :
    renderSection sec =
      SceneNode.node (createAutoLayoutFrame { name := some sec.type })
        (.cons (createTextNode sec.type
          { family := some "Inter", style := some "Bold", size := some 18 }) .nil) ∧
    (renderSection sec).data.ntype = "FRAME" ∧
    (renderSection sec).data.name = sec.type ∧
    ∃ label, (renderSection sec).children = .cons label .nil ∧
      label.data.ntype = "TEXT" ∧ label.data.characters = sec.type := by
  have heq : renderSection sec =
      SceneNode.node (createAutoLayoutFrame { name := some sec.type })
        (.cons (createTextNode sec.type
          { family := some "Inter", style := some "Bold", size := some 18 }) .nil) := by
    unfold renderSection
    split <;> simp_all
  refine ⟨heq, ?_, ?_, ?_⟩
  · rw [heq]
    simp [SceneNode.data, createAutoLayoutFrame, truthyNum]
  · rw [heq]
    simp [SceneNode.data, createAutoLayoutFrame, truthyNum]
  · refine ⟨createTextNode sec.type
      { family := some "Inter", style := some "Bold", size := some 18 }, ?_, ?_, ?_⟩
    · rw [heq]
      simp [SceneNode.children]
    · simp [createTextNode, SceneNode.data, truthyNum, jsOrStr]
    · simp [createTextNode, SceneNode.data, truthyNum, jsOrStr]

/-- Witness for C7: a section of unknown type `Pricing` renders as the
placeholder frame named `Pricing`. -/
theorem renderSection_unknown_type_placeholder_witness :
    "Pricing" ∉ ["Header", "Hero", "Features", "CTA", "Footer", "Testimonials"] ∧
    (renderSection { type := "Pricing", props := {} }).data.name = "Pricing" :=
  ⟨by decide,
   (renderSection_unknown_type_placeholder { type := "Pricing", props := {} }
     (by decide)).2.2.1⟩

/-- Claim C8: image slot failures are isolated — a slot whose fetch fails
is a complete no-op (the page equals processing the remaining slots
without it, so every node it targeted keeps its existing placeholder
fills), no slot failure aborts the pass, and slots whose fetch succeeds
are still applied to their matching nodes. -/
theorem applyAIGeneratedImages_slot_isolation (fetch : String → Option String)
    (pre post : List ImageSpec) (bad : ImageSpec) (page : SceneForest)
    (h : fetch bad.url = none) :
    AIRenderer.applyAIGeneratedImages fetch (pre ++ bad :: post) page =
      AIRenderer.applyAIGeneratedImages fetch (pre ++ post) page ∧
    (∀ n, applyImageToNode fetch ["RECTANGLE", "FRAME"] bad n = n) ∧
    (∀ img hsh d, fetch img.url = some hsh →
      (d.ntype = "RECTANGLE" ∨ d.ntype = "FRAME") → d.pluginRole = img.role →
      img.url ≠ "" →
      applyImageToData fetch ["RECTANGLE", "FRAME"] img d =
        { d with fills := [Paint.image "FILL" (some hsh)] }) := by
  refine ⟨?_, applyImageToNode_fetchFail fetch _ bad h, ?_⟩
  · unfold AIRenderer.applyAIGeneratedImages applyImagesPass
    rw [List.foldl_append, List.foldl_cons,
      applyImageToForest_fetchFail fetch _ bad h, ← List.foldl_append]
  · intro img hsh d hf hty hrole hurl
    unfold applyImageToData
    rw [if_pos ⟨by rcases hty with h1 | h1 <;> simp [h1], hrole, hurl⟩, hf]

/-- Witness for C8: with a failing `hero` slot and a succeeding `feature`
slot over a concrete page, dropping the failing slot changes nothing. -/
theorem applyAIGeneratedImages_slot_isolation_witness :
    AIRenderer.applyAIGeneratedImages demoFetch ([] ++ demoBadSlot :: [demoGoodSlot]) demoPage =
      AIRenderer.applyAIGeneratedImages demoFetch ([] ++ [demoGoodSlot]) demoPage :=
  (applyAIGeneratedImages_slot_isolation demoFetch [] [demoGoodSlot] demoBadSlot demoPage
    (by decide)).1

/-- Claim C9: for every UI-to-core message other than `GenerateFirstPage`
(SessionStart, Redesign, GenerateSitePages, ApplyImages), the handler
returns with the document unchanged and posts nothing to the UI. -/
theorem handleUIMessage_non_generate_noop (fetch : String → Option String)
    (b : BackendResult) (doc : List FigPage) (msg : UIToCoreMessage)
    (h : ∀ payload, msg ≠ UIToCoreMessage.generateFirstPage payload) :
    handleUIMessage fetch b doc msg = (doc, []) := by
  cases msg with
  | generateFirstPage payload => exact absurd rfl (h payload)
  | sessionStart _ => rfl
  | redesign _ => rfl
  | generateSitePages _ => rfl
  | applyImages _ => rfl

/-- Witness for C9: a `Redesign` message leaves a concrete document
untouched and posts nothing. -/
theorem handleUIMessage_non_generate_noop_witness :
    handleUIMessage demoFetch (BackendResult.httpError 500) []
      (UIToCoreMessage.redesign ["header"]) = ([], []) :=
  handleUIMessage_non_generate_noop demoFetch (BackendResult.httpError 500) []
    (UIToCoreMessage.redesign ["header"]) (fun _ hp => UIToCoreMessage.noConfusion hp)

/-- Claim C10: every paint the node builder assigns to fills or strokes
satisfies the validity predicate (SOLID channels in [0,1]; gradient stops
valid RGBA with positions in [0,1]; IMAGE with non-null hash); failing
paints are filtered out before assignment, and when no paint survives the
filter the node's existing fills (resp. strokes) are left unchanged. -/
theorem applyProperties_paint_gate (d : NodeData) (props : NodeProps) :
    (∀ fs, props.fills = some fs →
      (FigmaNodeBuilder.validatePaints fs ≠ [] →
        (FigmaNodeBuilder.applyProperties d props).fills =
          FigmaNodeBuilder.validatePaints fs ∧
        ∀ p ∈ (FigmaNodeBuilder.applyProperties d props).fills, claimPaintValid p) ∧
      (FigmaNodeBuilder.validatePaints fs = [] →
        (FigmaNodeBuilder.applyProperties d props).fills = d.fills)) ∧
    (∀ ss w, props.strokes = some ss → props.strokeWeight = some w →
      (FigmaNodeBuilder.validatePaints ss ≠ [] →
        (FigmaNodeBuilder.applyProperties d props).strokes =
          FigmaNodeBuilder.validatePaints ss ∧
        ∀ p ∈ (FigmaNodeBuilder.applyProperties d props).strokes, claimPaintValid p) ∧
      (FigmaNodeBuilder.validatePaints ss = [] →
        (FigmaNodeBuilder.applyProperties d props).strokes = d.strokes)) := by
  constructor
  · intro fs hfs
    have hchar : (FigmaNodeBuilder.applyProperties d props).fills =
        if (FigmaNodeBuilder.validatePaints fs).length > 0 then
          FigmaNodeBuilder.validatePaints fs else d.fills := by
      rw [FigmaNodeBuilder.applyProperties_fills_char, hfs]
    constructor
    · intro hne
      have hlen : (FigmaNodeBuilder.validatePaints fs).length > 0 :=
        List.length_pos.mpr hne
      rw [hchar, if_pos hlen]
      refine ⟨rfl, ?_⟩
      intro p hp
      exact validPaint_sound p (List.mem_filter.mp hp).2
    · intro hz
      rw [hchar, hz]
      simp
  · intro ss w hss hw
    have hchar : (FigmaNodeBuilder.applyProperties d props).strokes =
        if (FigmaNodeBuilder.validatePaints ss).length > 0 then
          FigmaNodeBuilder.validatePaints ss else d.strokes := by
      rw [FigmaNodeBuilder.applyProperties_strokes_char, hss, hw]
    constructor
    · intro hne
      have hlen : (FigmaNodeBuilder.validatePaints ss).length > 0 :=
        List.length_pos.mpr hne
      rw [hchar, if_pos hlen]
      refine ⟨rfl, ?_⟩
      intro p hp
      exact validPaint_sound p (List.mem_filter.mp hp).2
    · intro hz
      rw [hchar, hz]
      simp

/-- Witness for C10: with one out-of-range and one in-range solid paint,
the builder assigns exactly the filtered valid list. -/
theorem applyProperties_paint_gate_witness :
    FigmaNodeBuilder.validatePaints [Paint.solid ⟨2, 0, 0⟩, Paint.solid ⟨1, 0, 0⟩] ≠ [] ∧
    (FigmaNodeBuilder.applyProperties { ntype := "RECTANGLE" }
      { fills := some [Paint.solid ⟨2, 0, 0⟩, Paint.solid ⟨1, 0, 0⟩] }).fills =
      FigmaNodeBuilder.validatePaints [Paint.solid ⟨2, 0, 0⟩, Paint.solid ⟨1, 0, 0⟩] :=
  ⟨by decide,
   (((applyProperties_paint_gate { ntype := "RECTANGLE" }
      { fills := some [Paint.solid ⟨2, 0, 0⟩, Paint.solid ⟨1, 0, 0⟩] }).1
      [Paint.solid ⟨2, 0, 0⟩, Paint.solid ⟨1, 0, 0⟩] rfl).1 (by decide)).1⟩
